import Mathlib

/-!
Verification of the cube-embedding-demo repository.

The development shallowly embeds the two components of the repository:

* the client form logic of `src/src/App.tsx` (`loadSavedConfig`, the
  config-saving effect, `generateSession`, `handleRefresh`, and the
  embed-URL derivation), and
* the relay server of `src/server.js` (startup environment checks and the
  `POST /api/v1/embed/generate-session` proxy handler).

JavaScript JSON values are modelled by the inductive type `Json`; the
browser built-in `JSON.parse` is taken as a parameter (a function
`String → Except String Json`, errors being the thrown message), while
`JSON.stringify`, template-literal string coercion, truthiness and
property access are modelled explicitly below.  The network is modelled
as an oracle: a function from the request the code sends to the outcome
the code observes.
-/

namespace CubeEmbedDemo

/-- Model of a JavaScript JSON value (the possible results of `JSON.parse`). -/
inductive Json where
  | null : Json
  | bool : Bool → Json
  | num : Int → Json
  | str : String → Json
  | arr : List Json → Json
  | obj : List (String × Json) → Json

/-- Model of JavaScript truthiness (`!v` in the source) on JSON values:
`null`, `false`, `0` and `""` are falsy, everything else is truthy. -/
def jsTruthy : Json → Bool
  | Json.null => false
  | Json.bool b => b
  | Json.num n => n != 0
  | Json.str s => s != ""
  | Json.arr _ => true
  | Json.obj _ => true

/-- Truthiness of a possibly-undefined value (`undefined` is falsy). -/
def jsTruthyOpt : Option Json → Bool
  | none => false
  | some v => jsTruthy v

/-- Whether the value is a JSON array (`Array.isArray` in the source). -/
def Json.isArray : Json → Bool
  | Json.arr _ => true
  | _ => false

/-- Escape of one character inside a JSON string literal, as
`JSON.stringify` performs it for the characters relevant here. -/
def jsonEscapeChar (c : Char) : String :=
  if c = '\\' then "\\\\"
  else if c = '"' then "\\\""
  else if c = '\n' then "\\n"
  else if c = '\t' then "\\t"
  else if c = '\r' then "\\r"
  else String.singleton c

/-- A JSON string literal with surrounding quotes, as `JSON.stringify`
produces it. -/
def jsonQuote (s : String) : String :=
  "\"" ++ String.join (s.toList.map jsonEscapeChar) ++ "\""

mutual

/-- Model of `JSON.stringify` on JSON values (compact form, no spaces). -/
def Json.stringify : Json → String
  | Json.null => "null"
  | Json.bool b => if b then "true" else "false"
  | Json.num n => toString n
  | Json.str s => jsonQuote s
  | Json.arr xs => "[" ++ stringifyArr xs ++ "]"
  | Json.obj kvs => "\x7b" ++ stringifyObj kvs ++ "\x7d"

/-- Comma-separated serialization of the elements of a JSON array. -/
def stringifyArr : List Json → String
  | [] => ""
  | [x] => Json.stringify x
  | x :: xs => Json.stringify x ++ "," ++ stringifyArr xs

/-- Comma-separated serialization of the members of a JSON object. -/
def stringifyObj : List (String × Json) → String
  | [] => ""
  | [kv] => jsonQuote kv.1 ++ ":" ++ Json.stringify kv.2
  | kv :: kvs => jsonQuote kv.1 ++ ":" ++ Json.stringify kv.2 ++ "," ++ stringifyObj kvs

end

mutual

/-- Model of JavaScript string coercion of a JSON value, as a template
literal performs it (strings stay themselves, arrays join their elements
with commas, objects print as `[object Object]`). -/
def jsToString : Json → String
  | Json.null => "null"
  | Json.bool b => if b then "true" else "false"
  | Json.num n => toString n
  | Json.str s => s
  | Json.arr xs => jsToStringArr xs
  | Json.obj _ => "[object Object]"

/-- Array-to-string coercion: elements joined by commas, a `null`
element contributing the empty string. -/
def jsToStringArr : List Json → String
  | [] => ""
  | [Json.null] => ""
  | [x] => jsToString x
  | Json.null :: xs => "," ++ jsToStringArr xs
  | x :: xs => jsToString x ++ "," ++ jsToStringArr xs

end

/-- Whitespace as JavaScript `String.prototype.trim` removes it (the
common cases; exotic Unicode spaces are not used by this repository). -/
def isJsWhitespace (c : Char) : Bool :=
  c = ' ' || c = '\t' || c = '\n' || c = '\r' || c = '\x0b' || c = '\x0c'

/-- Model of JavaScript `s.trim()`: leading and trailing whitespace
removed. -/
def jsTrim (s : String) : String :=
  String.mk (((s.toList.dropWhile isJsWhitespace).reverse.dropWhile isJsWhitespace).reverse)

/-- Lookup of a key among the members of a JSON object. -/
def lookupField : List (String × Json) → String → Option Json
  | [], _ => none
  | (k, v) :: rest, key => if k = key then some v else lookupField rest key

/-- Model of JavaScript property access `v.key`: a `TypeError` is thrown
on `null`, an object yields the member value or `undefined` (`none`),
every other value yields `undefined`. -/
def jsGetProp : Json → String → Except String (Option Json)
  | Json.null, key =>
      Except.error ("TypeError: Cannot read properties of null (reading '" ++ key ++ "')")
  | Json.obj kvs, key => Except.ok (lookupField kvs key)
  | _, _ => Except.ok none

/-- Numeric value of a digit list (most significant first). -/
def digitsVal (cs : List Char) : Nat :=
  cs.foldl (fun acc c => acc * 10 + (c.toNat - '0'.toNat)) 0

/-- Model of JavaScript `parseInt` in base 10: leading whitespace is
skipped, an optional sign and then the maximal digit run is read, and
the result is `none` (`NaN`) when no digit is found. -/
def parseIntJs (s : String) : Option Int :=
  match (jsTrim s).toList with
  | '-' :: rest =>
      let ds := rest.takeWhile Char.isDigit
      if ds.isEmpty then none else some (-(digitsVal ds : Int))
  | '+' :: rest =>
      let ds := rest.takeWhile Char.isDigit
      if ds.isEmpty then none else some ((digitsVal ds : Int))
  | cs =>
      let ds := cs.takeWhile Char.isDigit
      if ds.isEmpty then none else some ((digitsVal ds : Int))

/-! ### Client data model (`src/src/App.tsx`) -/

/-- The `userIdType` state field: `'external' | 'internal'`. -/
inductive UserIdType where
  | external : UserIdType
  | internal : UserIdType
deriving DecidableEq, Repr

/-- The `embedType` state field: `'chat' | 'dashboard' | 'app'`. -/
inductive EmbedType where
  | chat : EmbedType
  | dashboard : EmbedType
  | app : EmbedType
deriving DecidableEq, Repr

/-- The client form state of `App.tsx` that feeds session generation and
persistence: the `useState` fields `deploymentId`, `userIdType`,
`externalId`, `internalId`, `embedType`, `dashboardId`, `userAttributes`,
`embedAfterGeneration` and `menuCollapsed`. -/
structure Config where
  deploymentId : String
  userIdType : UserIdType
  externalId : String
  internalId : String
  embedType : EmbedType
  dashboardId : String
  userAttributes : String
  embedAfterGeneration : Bool
  menuCollapsed : Bool
deriving DecidableEq, Repr

/-- The request payload built by `generateSession` (App.tsx lines
135-159): `deploymentId` is `parseInt(deploymentId)` (`none` = `NaN`),
and the four optional fields are absent when `none`. -/
structure RequestBody where
  deploymentId : Option Int
  externalId : Option String
  internalId : Option String
  userAttributes : Option Json
  creatorMode : Option Bool

/-- Local validation and payload construction of `generateSession`
(App.tsx lines 103-159), given the environment's `JSON.parse`:
dashboard requires a non-blank `dashboardId`, the active identity field
must be non-blank, user attributes are parsed only for external users
with non-blank attribute text and must be a JSON array; on success the
payload carries exactly the fields the source sets. -/
def prepareRequest (parse : String → Except String Json) (cfg : Config) :
    Except String RequestBody :=
  if cfg.embedType = EmbedType.dashboard ∧ jsTrim cfg.dashboardId = "" then
    Except.error "Dashboard Public ID is required for dashboard embedding"
  else if cfg.userIdType = UserIdType.external ∧ jsTrim cfg.externalId = "" then
    Except.error "External ID is required"
  else if cfg.userIdType = UserIdType.internal ∧ jsTrim cfg.internalId = "" then
    Except.error "Internal ID (email) is required"
  else
    let attrsResult : Except String (Option Json) :=
      if cfg.userIdType = UserIdType.external ∧ jsTrim cfg.userAttributes ≠ "" then
        match parse cfg.userAttributes with
        | Except.error msg => Except.error ("Invalid user attributes JSON: " ++ msg)
        | Except.ok v =>
            if v.isArray then Except.ok (some v)
            else Except.error "Invalid user attributes JSON: User attributes must be an array"
      else Except.ok none
    match attrsResult with
    | Except.error msg => Except.error msg
    | Except.ok parsedAttributes =>
        Except.ok
          { deploymentId := parseIntJs cfg.deploymentId
            externalId :=
              if cfg.userIdType = UserIdType.external then some cfg.externalId else none
            internalId :=
              if cfg.userIdType = UserIdType.internal then some cfg.internalId else none
            userAttributes :=
              if cfg.userIdType = UserIdType.external then parsedAttributes else none
            creatorMode :=
              if cfg.embedType = EmbedType.app then some true else none }

/-- The embed-URL derivation of `generateSession` (App.tsx lines
186-195): `/embed/d/:deploymentId/(chat|dashboard/:publicId|app)?session=`. -/
def buildEmbedUrl (base : String) (cfg : Config) (sessionId : String) : String :=
  if cfg.embedType = EmbedType.chat then
    base ++ "/embed/d/" ++ cfg.deploymentId ++ "/chat?session=" ++ sessionId
  else if cfg.embedType = EmbedType.dashboard then
    base ++ "/embed/d/" ++ cfg.deploymentId ++ "/dashboard/" ++ cfg.dashboardId ++
      "?session=" ++ sessionId
  else
    base ++ "/embed/d/" ++ cfg.deploymentId ++ "/app?session=" ++ sessionId

/-- The ephemeral client render state touched by `generateSession`: the
`useState` fields `error`, `success`, `sessionId`, `embedUrl`,
`displayEmbedUrl` and `iframeError`. -/
structure ClientState where
  error : Option String
  success : Option String
  sessionId : Option Json
  embedUrl : Option String
  displayEmbedUrl : Option String
  iframeError : Option String

/-- An HTTP response observed by the client `fetch`: status, status
text, body text (`response.text()`), and the result of `response.json()`
(which may throw). -/
structure HttpResponse where
  status : Nat
  statusText : String
  bodyText : String
  bodyJson : Except String Json

/-- `response.ok`: status in the 2xx range. -/
def HttpResponse.isOk (r : HttpResponse) : Bool :=
  200 ≤ r.status && r.status ≤ 299

/-- Outcome of a client `fetch`: a response, or a thrown network error. -/
inductive FetchOutcome where
  | response : HttpResponse → FetchOutcome
  | networkError : String → FetchOutcome

/-- One run of `generateSession` (App.tsx lines 95-215) as a state
transformer: `clearErrors` mirrors the parameter of the source, `parse`
is the environment's `JSON.parse`, and `fetchFn` is the network oracle
giving the outcome of the single `fetch` to the relay. -/
def generateSessionStep (base : String) (parse : String → Except String Json)
    (fetchFn : RequestBody → FetchOutcome) (cfg : Config) (clearErrors : Bool)
    (st : ClientState) : ClientState :=
  let st0 :=
    if clearErrors then
      { st with error := none, success := none, embedUrl := none, displayEmbedUrl := none }
    else st
  match prepareRequest parse cfg with
  | Except.error msg => { st0 with error := some msg }
  | Except.ok requestBody =>
    match fetchFn requestBody with
    | FetchOutcome.networkError msg => { st0 with error := some msg }
    | FetchOutcome.response r =>
      if ¬ r.isOk then
        { st0 with error := some ("Failed to generate session: " ++ toString r.status ++
            " " ++ r.statusText ++ "\n" ++ r.bodyText) }
      else
        match r.bodyJson with
        | Except.error msg => { st0 with error := some msg }
        | Except.ok sessionData =>
          match jsGetProp sessionData "sessionId" with
          | Except.error msg => { st0 with error := some msg }
          | Except.ok newSessionId =>
            if ¬ jsTruthyOpt newSessionId then
              { st0 with error := some ("Session ID not found in response: " ++
                  sessionData.stringify) }
            else
              let sid := newSessionId.getD Json.null
              let url := buildEmbedUrl base cfg (jsToString sid)
              { st0 with
                  sessionId := some sid
                  displayEmbedUrl := some url
                  embedUrl := if cfg.embedAfterGeneration then some url else none
                  iframeError := if cfg.embedAfterGeneration then none else st0.iframeError
                  success := some ("Session generated successfully! Session ID: " ++
                    jsToString sid) }

/-- The refresh-path pre-validation of `handleRefresh` (App.tsx lines
222-234): the error message when a required field is falsy, `none` when
the checks pass. -/
def refreshPrecheck (cfg : Config) : Option String :=
  if cfg.deploymentId = "" then
    some "Please fill in Deployment ID before refreshing"
  else if cfg.userIdType = UserIdType.external ∧ cfg.externalId = "" then
    some "Please fill in External ID before refreshing"
  else if cfg.userIdType = UserIdType.internal ∧ cfg.internalId = "" then
    some "Please fill in Internal ID before refreshing"
  else none

/-- `handleRefresh` (App.tsx lines 222-236): on a failed pre-check set
the error, otherwise run `generateSession(false)`. -/
def handleRefresh (base : String) (parse : String → Except String Json)
    (fetchFn : RequestBody → FetchOutcome) (cfg : Config) (st : ClientState) :
    ClientState :=
  match refreshPrecheck cfg with
  | some msg => { st with error := some msg }
  | none => generateSessionStep base parse fetchFn cfg false st

/-! ### Configuration persistence (`App.tsx` lines 38-93)

`localStorage` holds `JSON.stringify` of the flat `SavedConfig` record
(strings and booleans only), under one key; since JSON round-trips such
a record fieldwise, the stored blob is modelled at the record level.
The component's union-typed fields come back from storage as raw
strings; `saveConfig` only ever writes the union's words, and the one
legacy value `'home'` is migrated on load, so the string-to-enum
readback below covers every value the component itself can persist. -/

/-- The persisted `SavedConfig` record: the stored JSON blob, with
`userIdType` and `embedType` as the raw persisted strings. -/
structure StoredConfig where
  deploymentId : String
  userIdType : String
  externalId : String
  internalId : String
  embedType : String
  dashboardId : String
  userAttributes : String
  embedAfterGeneration : Bool
  menuCollapsed : Bool
deriving DecidableEq, Repr

/-- The string persisted for a `userIdType` value. -/
def UserIdType.toStr : UserIdType → String
  | UserIdType.external => "external"
  | UserIdType.internal => "internal"

/-- The string persisted for an `embedType` value. -/
def EmbedType.toStr : EmbedType → String
  | EmbedType.chat => "chat"
  | EmbedType.dashboard => "dashboard"
  | EmbedType.app => "app"

/-- The save effect (App.tsx lines 76-93): the full current
configuration is serialized to storage on every change. -/
def saveConfig (c : Config) : StoredConfig :=
  { deploymentId := c.deploymentId
    userIdType := c.userIdType.toStr
    externalId := c.externalId
    internalId := c.internalId
    embedType := c.embedType.toStr
    dashboardId := c.dashboardId
    userAttributes := c.userAttributes
    embedAfterGeneration := c.embedAfterGeneration
    menuCollapsed := c.menuCollapsed }

/-- The legacy migration inside `loadSavedConfig` (App.tsx lines 43-46):
a stored `embedType` of `'home'` becomes `'app'`. -/
def migrateSavedConfig (s : StoredConfig) : StoredConfig :=
  if s.embedType = "home" then { s with embedType := "app" } else s

/-- `loadSavedConfig` (App.tsx lines 38-53): `none` models an absent or
unparsable blob (the source returns `{}`), a present blob is returned
after the legacy migration. -/
def loadSavedConfig (stored : Option StoredConfig) : Option StoredConfig :=
  stored.map migrateSavedConfig

/-- JavaScript `saved || default` on a present string field: the default
applies exactly when the stored string is empty. -/
def strOrDefault (v d : String) : String :=
  if v = "" then d else v

/-- Readback of the persisted `userIdType` string into the component's
union type (`''` falls back to `'external'` via `||`). -/
def readUserIdType : String → UserIdType
  | "internal" => UserIdType.internal
  | _ => UserIdType.external

/-- Readback of the persisted `embedType` string into the component's
union type (`''` falls back to `'chat'` via `||`; `'home'` never reaches
this point, being migrated on load). -/
def readEmbedType : String → EmbedType
  | "dashboard" => EmbedType.dashboard
  | "app" => EmbedType.app
  | "chat" => EmbedType.chat
  | _ => EmbedType.chat

/-- The `useState` initializers (App.tsx lines 57-72): each field comes
from the loaded blob with its `||` (strings) or `??` (booleans) default;
`externalId` alone carries the non-empty default `'test-user-123'`. -/
def initConfig (loaded : Option StoredConfig) : Config :=
  match loaded with
  | none =>
      { deploymentId := ""
        userIdType := UserIdType.external
        externalId := "test-user-123"
        internalId := ""
        embedType := EmbedType.chat
        dashboardId := ""
        userAttributes := ""
        embedAfterGeneration := true
        menuCollapsed := false }
  | some s =>
      { deploymentId := strOrDefault s.deploymentId ""
        userIdType := readUserIdType (strOrDefault s.userIdType "external")
        externalId := strOrDefault s.externalId "test-user-123"
        internalId := strOrDefault s.internalId ""
        embedType := readEmbedType (strOrDefault s.embedType "chat")
        dashboardId := strOrDefault s.dashboardId ""
        userAttributes := strOrDefault s.userAttributes ""
        embedAfterGeneration := s.embedAfterGeneration
        menuCollapsed := s.menuCollapsed }

/-- Saving the configuration and then relaunching: store the blob, load
it back with migration, and rebuild the component state. -/
def reloadConfig (c : Config) : Config :=
  initConfig (loadSavedConfig (some (saveConfig c)))

/-! ### Session relay (`src/server.js`) -/

/-- The process environment variables the server reads (`none` models an
unset variable). -/
structure Env where
  port : Option String
  cubeApiUrl : Option String
  apiKey : Option String

/-- JavaScript falsiness of an environment variable: unset or empty. -/
def envFalsy : Option String → Bool
  | none => true
  | some s => s = ""

/-- The configuration the server runs with after startup. -/
structure ServerConfig where
  port : String
  cubeApiUrl : String
  apiKey : String
deriving DecidableEq, Repr

/-- The startup sequence of `server.js` (lines 7-25): `PORT` defaults
to `3001` via `||`, then a falsy `API_KEY` and a falsy `CUBE_API_URL`
are each a fatal error (`process.exit(1)`) with its message. -/
def startup (env : Env) : Except String ServerConfig :=
  let port := match env.port with
    | none => "3001"
    | some p => strOrDefault p "3001"
  if envFalsy env.apiKey then
    Except.error "ERROR: API_KEY environment variable is required"
  else if envFalsy env.cubeApiUrl then
    Except.error "ERROR: CUBE_API_URL environment variable is required"
  else
    Except.ok
      { port := port
        cubeApiUrl := (env.cubeApiUrl.getD "")
        apiKey := (env.apiKey.getD "") }

/-- The request `server.js` sends upstream (lines 33-40): URL, the two
headers it sets, and the re-serialized client body. -/
structure ForwardedRequest where
  url : String
  contentType : String
  authorization : String
  body : String

/-- What the upstream `fetch` yields: a response (status, body text,
optional `Content-Type` header), or a thrown network error. -/
inductive UpstreamResult where
  | response : Nat → String → Option String → UpstreamResult
  | thrown : String → UpstreamResult

/-- The response the relay sends back to the client. -/
structure RelayResponse where
  status : Nat
  contentType : String
  body : String

/-- The forwarded request the handler builds for a client body (lines
33-40): the upstream endpoint, JSON content type, `Api-Key` credential,
and `JSON.stringify(req.body)`. -/
def mkForwardedRequest (cubeApiUrl apiKey : String) (reqBody : Json) : ForwardedRequest :=
  { url := cubeApiUrl ++ "/api/v1/embed/generate-session"
    contentType := "application/json"
    authorization := "Api-Key " ++ apiKey
    body := reqBody.stringify }

/-- The `POST /api/v1/embed/generate-session` handler (lines 31-52),
with the upstream network as an oracle: on a response, relay its status
and body text with the mirrored `Content-Type` (defaulting to JSON); on
a thrown error, answer 500 with the JSON error envelope. -/
def relayHandler (upstream : ForwardedRequest → UpstreamResult)
    (cubeApiUrl apiKey : String) (reqBody : Json) : RelayResponse :=
  match upstream (mkForwardedRequest cubeApiUrl apiKey reqBody) with
  | UpstreamResult.response status body ct =>
      { status := status
        contentType := ct.getD "application/json"
        body := body }
  | UpstreamResult.thrown msg =>
      { status := 500
        contentType := "application/json"
        body := (Json.obj [("error", Json.str "Failed to proxy request"),
                           ("message", Json.str msg)]).stringify }

/-! ### Concrete instances used to exercise the embedding -/

/-- The ephemeral client state with every `useState` field at its
initial value. -/
def emptyClientState : ClientState :=
  { error := none, success := none, sessionId := none, embedUrl := none
    displayEmbedUrl := none, iframeError := none }

/-- A concrete internal-identity configuration that still carries
previously entered (unparsable) attribute text. -/
def internalConfig : Config :=
  { deploymentId := "7", userIdType := UserIdType.internal
    externalId := "test-user-123", internalId := "user@example.com"
    embedType := EmbedType.chat, dashboardId := ""
    userAttributes := "[\x7bname:city\x7d]", embedAfterGeneration := true
    menuCollapsed := false }

/-- The payload `prepareRequest` yields for `internalConfig`. -/
def internalBody : RequestBody :=
  { deploymentId := some 7, externalId := none
    internalId := some "user@example.com", userAttributes := none
    creatorMode := none }

/-- A `JSON.parse` model that always throws, as it would on the
unparsable attribute text of `internalConfig`. -/
def throwingParse : String → Except String Json :=
  fun _ => Except.error "SyntaxError: Unexpected token"

/-- Whether `JSON.parse` followed by the array check rejects the given
attribute text: the parse throws, or the parsed value is not an array. -/
def attributesRejected (parse : String → Except String Json) (s : String) : Bool :=
  match parse s with
  | Except.error _ => true
  | Except.ok v => !v.isArray

/-- A concrete dashboard configuration with an empty dashboard id. -/
def dashboardNoIdConfig : Config :=
  { deploymentId := "32", userIdType := UserIdType.external
    externalId := "test-user-123", internalId := ""
    embedType := EmbedType.dashboard, dashboardId := "", userAttributes := ""
    embedAfterGeneration := true, menuCollapsed := false }

/-! ### Claims -/

/-- C1: for every successful session generation, the derived embed URL
is exactly `{base}/embed/d/{deploymentId}/chat?session={sessionId}` for
embedType chat, `{base}/embed/d/{deploymentId}/dashboard/{dashboardId}?session={sessionId}`
for embedType dashboard, and `{base}/embed/d/{deploymentId}/app?session={sessionId}`
for embedType app. -/
theorem c1_embed_url_shape (base : String) (parse : String → Except String Json)
    (fetchFn : RequestBody → FetchOutcome) (cfg : Config) (clearErrors : Bool)
    (st : ClientState) (requestBody : RequestBody) (r : HttpResponse)
    (sessionData : Json) (s : String)
    (hprep : prepareRequest parse cfg = Except.ok requestBody)
    (hfetch : fetchFn requestBody = FetchOutcome.response r)
    (hok : r.isOk = true)
    (hjson : r.bodyJson = Except.ok sessionData)
    (hfield : jsGetProp sessionData "sessionId" = Except.ok (some (Json.str s)))
    (hne : s ≠ "") :
    (generateSessionStep base parse fetchFn cfg clearErrors st).displayEmbedUrl =
      some (match cfg.embedType with
        | EmbedType.chat =>
            base ++ "/embed/d/" ++ cfg.deploymentId ++ "/chat?session=" ++ s
        | EmbedType.dashboard =>
            base ++ "/embed/d/" ++ cfg.deploymentId ++ "/dashboard/" ++
              cfg.dashboardId ++ "?session=" ++ s
        | EmbedType.app =>
            base ++ "/embed/d/" ++ cfg.deploymentId ++ "/app?session=" ++ s) := by
  simp only [generateSessionStep, hprep, hfetch, hok, hjson, hfield, jsTruthyOpt,
    jsTruthy, jsToString, Option.getD, not_true, Bool.not_eq_true]
  rw [if_neg (by simp), if_neg (by simp [hne])]
  cases hc : cfg.embedType <;> simp [buildEmbedUrl, hc]

/-- C1 witness: with deploymentId `"32"`, embedType chat and a relay
response carrying sessionId `"abc123"`, the derived URL is
`{base}/embed/d/32/chat?session=abc123`. -/
theorem c1_embed_url_shape_witness :
    (generateSessionStep "https://cube.example"
        (fun _ => Except.error "unused")
        (fun _ => FetchOutcome.response
          { status := 200, statusText := "OK"
            bodyText := "\x7b\"sessionId\":\"abc123\"\x7d"
            bodyJson := Except.ok (Json.obj [("sessionId", Json.str "abc123")]) })
        { deploymentId := "32", userIdType := UserIdType.external
          externalId := "test-user-123", internalId := ""
          embedType := EmbedType.chat, dashboardId := "", userAttributes := ""
          embedAfterGeneration := true, menuCollapsed := false }
        true
        { error := none, success := none, sessionId := none, embedUrl := none
          displayEmbedUrl := none, iframeError := none }).displayEmbedUrl =
      some "https://cube.example/embed/d/32/chat?session=abc123" := by
  have h := c1_embed_url_shape "https://cube.example"
    (fun _ => Except.error "unused")
    (fun _ => FetchOutcome.response
      { status := 200, statusText := "OK"
        bodyText := "\x7b\"sessionId\":\"abc123\"\x7d"
        bodyJson := Except.ok (Json.obj [("sessionId", Json.str "abc123")]) })
    { deploymentId := "32", userIdType := UserIdType.external
      externalId := "test-user-123", internalId := ""
      embedType := EmbedType.chat, dashboardId := "", userAttributes := ""
      embedAfterGeneration := true, menuCollapsed := false }
    true
    { error := none, success := none, sessionId := none, embedUrl := none
      displayEmbedUrl := none, iframeError := none }
    { deploymentId := some 32, externalId := some "test-user-123"
      internalId := none, userAttributes := none, creatorMode := none }
    { status := 200, statusText := "OK"
      bodyText := "\x7b\"sessionId\":\"abc123\"\x7d"
      bodyJson := Except.ok (Json.obj [("sessionId", Json.str "abc123")]) }
    (Json.obj [("sessionId", Json.str "abc123")]) "abc123"
    (by rfl) rfl rfl rfl rfl (by decide)
  rw [h]
  rfl

/-- C2: for every client request the relay receives — including those
answered with a non-2xx upstream status — the forwarded request carries
the client body unmodified (re-serialized JSON value) with the added
`Api-Key` Authorization credential, and the relay returns the upstream's
status code and body unchanged to the caller. -/
theorem c2_relay_forwards (upstream : ForwardedRequest → UpstreamResult)
    (cubeApiUrl apiKey : String) (reqBody : Json) (status : Nat) (respBody : String)
    (respContentType : Option String)
    (hresp : upstream (mkForwardedRequest cubeApiUrl apiKey reqBody) =
      UpstreamResult.response status respBody respContentType) :
    (mkForwardedRequest cubeApiUrl apiKey reqBody).body = reqBody.stringify ∧
    (mkForwardedRequest cubeApiUrl apiKey reqBody).authorization = "Api-Key " ++ apiKey ∧
    (mkForwardedRequest cubeApiUrl apiKey reqBody).url =
      cubeApiUrl ++ "/api/v1/embed/generate-session" ∧
    (relayHandler upstream cubeApiUrl apiKey reqBody).status = status ∧
    (relayHandler upstream cubeApiUrl apiKey reqBody).body = respBody := by
  refine ⟨rfl, rfl, rfl, ?_, ?_⟩ <;> simp [relayHandler, hresp]

/-- C2 witness: a concrete upstream answering 403 `forbidden` has its
status and body relayed unchanged, the forwarded request carrying the
serialized client body and the `Api-Key` credential. -/
theorem c2_relay_forwards_witness :
    (mkForwardedRequest "https://cube.example" "secret-key"
        (Json.obj [("deploymentId", Json.num 32)])).body =
      (Json.obj [("deploymentId", Json.num 32)]).stringify ∧
    (mkForwardedRequest "https://cube.example" "secret-key"
        (Json.obj [("deploymentId", Json.num 32)])).authorization =
      "Api-Key " ++ "secret-key" ∧
    (mkForwardedRequest "https://cube.example" "secret-key"
        (Json.obj [("deploymentId", Json.num 32)])).url =
      "https://cube.example" ++ "/api/v1/embed/generate-session" ∧
    (relayHandler (fun _ => UpstreamResult.response 403 "forbidden" none)
        "https://cube.example" "secret-key"
        (Json.obj [("deploymentId", Json.num 32)])).status = 403 ∧
    (relayHandler (fun _ => UpstreamResult.response 403 "forbidden" none)
        "https://cube.example" "secret-key"
        (Json.obj [("deploymentId", Json.num 32)])).body = "forbidden" :=
  c2_relay_forwards (fun _ => UpstreamResult.response 403 "forbidden" none)
    "https://cube.example" "secret-key" (Json.obj [("deploymentId", Json.num 32)])
    403 "forbidden" none rfl

/-- C3: every payload that passes local validation carries exactly one
of externalId/internalId, chosen by userIdType; with internal identity
the payload omits externalId and userAttributes regardless of any
entered attribute text. -/
theorem c3_identity_exclusive (parse : String → Except String Json) (cfg : Config)
    (pb : RequestBody) (hprep : prepareRequest parse cfg = Except.ok pb) :
    (cfg.userIdType = UserIdType.external →
      pb.externalId = some cfg.externalId ∧ pb.internalId = none) ∧
    (cfg.userIdType = UserIdType.internal →
      pb.internalId = some cfg.internalId ∧ pb.externalId = none ∧
      pb.userAttributes = none) := by
  unfold prepareRequest at hprep
  split at hprep
  · exact Except.noConfusion hprep
  split at hprep
  · exact Except.noConfusion hprep
  split at hprep
  · exact Except.noConfusion hprep
  dsimp only at hprep
  split at hprep
  · exact Except.noConfusion hprep
  injection hprep with hpb
  subst hpb
  constructor <;> intro hu <;> simp [hu]

/-- C3 witness: with internal identity and previously entered (even
unparsable) attribute text, the payload carries internalId and omits
externalId and userAttributes. -/
theorem c3_identity_exclusive_witness :
    (internalConfig.userIdType = UserIdType.external →
      internalBody.externalId = some internalConfig.externalId ∧
      internalBody.internalId = none) ∧
    (internalConfig.userIdType = UserIdType.internal →
      internalBody.internalId = some internalConfig.internalId ∧
      internalBody.externalId = none ∧
      internalBody.userAttributes = none) :=
  c3_identity_exclusive throwingParse internalConfig internalBody (by rfl)

/-- C4: the payload includes `creatorMode = true` exactly when the
embed type is app; for chat and dashboard the field is absent. -/
theorem c4_creator_mode (parse : String → Except String Json) (cfg : Config)
    (pb : RequestBody) (hprep : prepareRequest parse cfg = Except.ok pb) :
    pb.creatorMode = if cfg.embedType = EmbedType.app then some true else none := by
  unfold prepareRequest at hprep
  split at hprep
  · exact Except.noConfusion hprep
  split at hprep
  · exact Except.noConfusion hprep
  split at hprep
  · exact Except.noConfusion hprep
  dsimp only at hprep
  split at hprep
  · exact Except.noConfusion hprep
  injection hprep with hpb
  subst hpb
  rfl

/-- C4 witness: an app-type configuration yields `creatorMode = true`
in the payload. -/
theorem c4_creator_mode_witness :
    ({ deploymentId := some 7, externalId := some "test-user-123"
       internalId := none, userAttributes := none
       creatorMode := some true } : RequestBody).creatorMode = some true :=
  c4_creator_mode (fun _ => Except.error "unused")
    { deploymentId := "7", userIdType := UserIdType.external
      externalId := "test-user-123", internalId := ""
      embedType := EmbedType.app, dashboardId := "", userAttributes := ""
      embedAfterGeneration := true, menuCollapsed := false }
    { deploymentId := some 7, externalId := some "test-user-123"
      internalId := none, userAttributes := none, creatorMode := some true }
    (by rfl)

/-- C5: whenever local validation fails — dashboard embedding with a
blank dashboardId, a blank active identity field, or (for external
identity) attribute text that is not valid JSON or does not parse to an
array — an error is set and the resulting state is independent of the
network oracle: no request is issued. -/
theorem c5_validation_blocks_request (base : String)
    (parse : String → Except String Json)
    (fetchFn fetchFn2 : RequestBody → FetchOutcome) (cfg : Config)
    (clearErrors : Bool) (st : ClientState)
    (hfail : (cfg.embedType = EmbedType.dashboard ∧ jsTrim cfg.dashboardId = "") ∨
      (cfg.userIdType = UserIdType.external ∧ jsTrim cfg.externalId = "") ∨
      (cfg.userIdType = UserIdType.internal ∧ jsTrim cfg.internalId = "") ∨
      (cfg.userIdType = UserIdType.external ∧ jsTrim cfg.userAttributes ≠ "" ∧
        attributesRejected parse cfg.userAttributes = true)) :
    ((generateSessionStep base parse fetchFn cfg clearErrors st).error).isSome = true ∧
    generateSessionStep base parse fetchFn cfg clearErrors st =
      generateSessionStep base parse fetchFn2 cfg clearErrors st := by
  obtain ⟨m, hm⟩ : ∃ m, prepareRequest parse cfg = Except.error m := by
    unfold prepareRequest
    by_cases h1 : cfg.embedType = EmbedType.dashboard ∧ jsTrim cfg.dashboardId = ""
    · rw [if_pos h1]; exact ⟨_, rfl⟩
    by_cases h2 : cfg.userIdType = UserIdType.external ∧ jsTrim cfg.externalId = ""
    · rw [if_neg h1, if_pos h2]; exact ⟨_, rfl⟩
    by_cases h3 : cfg.userIdType = UserIdType.internal ∧ jsTrim cfg.internalId = ""
    · rw [if_neg h1, if_neg h2, if_pos h3]; exact ⟨_, rfl⟩
    rcases hfail with h | h | h | h
    · exact absurd h h1
    · exact absurd h h2
    · exact absurd h h3
    rw [if_neg h1, if_neg h2, if_neg h3]
    dsimp only
    rw [if_pos ⟨h.1, h.2.1⟩]
    have hbad := h.2.2
    unfold attributesRejected at hbad
    cases hp : parse cfg.userAttributes with
    | error msg => exact ⟨_, rfl⟩
    | ok v =>
        rw [hp] at hbad
        have hv : v.isArray = false := by simpa using hbad
        dsimp only
        rw [hv]
        exact ⟨_, rfl⟩
  constructor
  · cases clearErrors <;> simp [generateSessionStep, hm]
  · simp [generateSessionStep, hm]

/-- C5 witness: dashboard embedding with an empty dashboard id sets an
error, and two different network oracles observe the same resulting
state. -/
theorem c5_validation_blocks_request_witness :
    ((generateSessionStep "https://cube.example" throwingParse
        (fun _ => FetchOutcome.networkError "oracle A")
        dashboardNoIdConfig true emptyClientState).error).isSome = true ∧
    generateSessionStep "https://cube.example" throwingParse
        (fun _ => FetchOutcome.networkError "oracle A")
        dashboardNoIdConfig true emptyClientState =
      generateSessionStep "https://cube.example" throwingParse
        (fun _ => FetchOutcome.response
          { status := 200, statusText := "OK", bodyText := ""
            bodyJson := Except.ok Json.null })
        dashboardNoIdConfig true emptyClientState :=
  c5_validation_blocks_request "https://cube.example" throwingParse
    (fun _ => FetchOutcome.networkError "oracle A")
    (fun _ => FetchOutcome.response
      { status := 200, statusText := "OK", bodyText := ""
        bodyJson := Except.ok Json.null })
    dashboardNoIdConfig true emptyClientState
    (Or.inl ⟨rfl, rfl⟩)

/-- C6: when the upstream call throws, the relay responds 500 with the
JSON error envelope, and the response is independent of the credential:
for a key-independent upstream behaviour, changing the API key does not
change the relayed response. -/
theorem c6_network_error_response (upstream : ForwardedRequest → UpstreamResult)
    (cubeApiUrl apiKey apiKey2 : String) (reqBody : Json) (msg : String)
    (hthrow : upstream (mkForwardedRequest cubeApiUrl apiKey reqBody) =
      UpstreamResult.thrown msg)
    (hind : ∀ f g : ForwardedRequest, f.body = g.body → upstream f = upstream g) :
    relayHandler upstream cubeApiUrl apiKey reqBody =
      { status := 500, contentType := "application/json"
        body := (Json.obj [("error", Json.str "Failed to proxy request"),
                           ("message", Json.str msg)]).stringify } ∧
    relayHandler upstream cubeApiUrl apiKey reqBody =
      relayHandler upstream cubeApiUrl apiKey2 reqBody := by
  have h2 : upstream (mkForwardedRequest cubeApiUrl apiKey2 reqBody) =
      UpstreamResult.thrown msg := by
    rw [hind (mkForwardedRequest cubeApiUrl apiKey2 reqBody)
      (mkForwardedRequest cubeApiUrl apiKey reqBody) rfl]
    exact hthrow
  constructor <;> simp [relayHandler, hthrow, h2]

/-- C6 witness: a concrete throwing upstream yields the 500 JSON error
envelope, identically for two different API keys. -/
theorem c6_network_error_response_witness :
    relayHandler (fun _ => UpstreamResult.thrown "fetch failed")
        "https://cube.example" "key-one" (Json.obj [("deploymentId", Json.num 32)]) =
      { status := 500, contentType := "application/json"
        body := (Json.obj [("error", Json.str "Failed to proxy request"),
                           ("message", Json.str "fetch failed")]).stringify } ∧
    relayHandler (fun _ => UpstreamResult.thrown "fetch failed")
        "https://cube.example" "key-one" (Json.obj [("deploymentId", Json.num 32)]) =
      relayHandler (fun _ => UpstreamResult.thrown "fetch failed")
        "https://cube.example" "key-two" (Json.obj [("deploymentId", Json.num 32)]) :=
  c6_network_error_response (fun _ => UpstreamResult.thrown "fetch failed")
    "https://cube.example" "key-one" "key-two"
    (Json.obj [("deploymentId", Json.num 32)]) "fetch failed"
    rfl (fun _ _ _ => rfl)

/-- Helper: `saved || ""` keeps the saved string. -/
theorem strOrDefault_empty_default (v : String) : strOrDefault v "" = v := by
  unfold strOrDefault
  split <;> simp_all

/-- Helper: `saved || default` keeps a non-empty saved string. -/
theorem strOrDefault_of_ne (v d : String) (h : v ≠ "") : strOrDefault v d = v :=
  if_neg h

/-- C7 counterexample: a configuration whose `externalId` is empty does
not round-trip: reloading restores `externalId = "test-user-123"`
instead of the saved empty string. -/
theorem c7_roundtrip_counterexample :
    reloadConfig
        { deploymentId := "32", userIdType := UserIdType.internal
          externalId := "", internalId := "user@example.com"
          embedType := EmbedType.chat, dashboardId := "", userAttributes := ""
          embedAfterGeneration := true, menuCollapsed := false } ≠
      { deploymentId := "32", userIdType := UserIdType.internal
        externalId := "", internalId := "user@example.com"
        embedType := EmbedType.chat, dashboardId := "", userAttributes := ""
        embedAfterGeneration := true, menuCollapsed := false } ∧
    (reloadConfig
        { deploymentId := "32", userIdType := UserIdType.internal
          externalId := "", internalId := "user@example.com"
          embedType := EmbedType.chat, dashboardId := "", userAttributes := ""
          embedAfterGeneration := true, menuCollapsed := false }).externalId =
      "test-user-123" := by
  constructor <;> decide

/-- C7 amended: saving then reloading restores identical field values
for every configuration whose `externalId` is non-empty (a saved empty
`externalId` comes back as the default `test-user-123`), and a persisted
legacy `embedType` of `home` is migrated to `app` on load. -/
theorem c7_roundtrip_amended (c : Config) (hext : c.externalId ≠ "") :
    reloadConfig c = c ∧
    ∀ s : StoredConfig, s.embedType = "home" →
      (initConfig (loadSavedConfig (some s))).embedType = EmbedType.app := by
  constructor
  · obtain ⟨d, u, e, i, t, db, ua, g, m⟩ := c
    simp only [ne_eq] at hext
    cases u <;> cases t <;>
      simp [reloadConfig, saveConfig, loadSavedConfig, migrateSavedConfig,
        initConfig, readUserIdType, readEmbedType, UserIdType.toStr, EmbedType.toStr,
        strOrDefault_empty_default, strOrDefault_of_ne _ _ hext, strOrDefault] <;>
      exact ⟨fun h => h.symm, fun h => absurd h hext, fun h => h.symm,
        fun h => h.symm, fun h => h.symm⟩
  · intro s hs
    simp [loadSavedConfig, migrateSavedConfig, hs, initConfig, strOrDefault,
      readEmbedType]

/-- C7 witness: a concrete configuration with non-empty `externalId`
round-trips exactly, and a concrete stored blob with the legacy
`embedType = "home"` loads as `app`. -/
theorem c7_roundtrip_amended_witness :
    reloadConfig
        { deploymentId := "32", userIdType := UserIdType.external
          externalId := "test-user-123", internalId := ""
          embedType := EmbedType.dashboard, dashboardId := "pub-1"
          userAttributes := "[]", embedAfterGeneration := false
          menuCollapsed := true } =
      { deploymentId := "32", userIdType := UserIdType.external
        externalId := "test-user-123", internalId := ""
        embedType := EmbedType.dashboard, dashboardId := "pub-1"
        userAttributes := "[]", embedAfterGeneration := false
        menuCollapsed := true } ∧
    (initConfig (loadSavedConfig (some
        { deploymentId := "32", userIdType := "external"
          externalId := "test-user-123", internalId := ""
          embedType := "home", dashboardId := "", userAttributes := ""
          embedAfterGeneration := true, menuCollapsed := false }))).embedType =
      EmbedType.app :=
  ⟨(c7_roundtrip_amended
      { deploymentId := "32", userIdType := UserIdType.external
        externalId := "test-user-123", internalId := ""
        embedType := EmbedType.dashboard, dashboardId := "pub-1"
        userAttributes := "[]", embedAfterGeneration := false
        menuCollapsed := true } (by decide)).1,
   (c7_roundtrip_amended
      { deploymentId := "32", userIdType := UserIdType.external
        externalId := "test-user-123", internalId := ""
        embedType := EmbedType.dashboard, dashboardId := "pub-1"
        userAttributes := "[]", embedAfterGeneration := false
        menuCollapsed := true } (by decide)).2
    { deploymentId := "32", userIdType := "external"
      externalId := "test-user-123", internalId := ""
      embedType := "home", dashboardId := "", userAttributes := ""
      embedAfterGeneration := true, menuCollapsed := false } rfl⟩

/-- C8: when its pre-check passes, the manual refresh runs the very
same generate flow (hence the same URL derivation) with current field
values and `clearErrors = false`; the pre-check depends only on
`deploymentId`, `userIdType`, `externalId` and `internalId`, and it
fails exactly when `deploymentId` or the active identity field is
empty. -/
theorem c8_refresh_flow (base : String) (parse : String → Except String Json)
    (fetchFn : RequestBody → FetchOutcome) (cfg cfg2 : Config) (st : ClientState)
    (h1 : cfg.deploymentId = cfg2.deploymentId) (h2 : cfg.userIdType = cfg2.userIdType)
    (h3 : cfg.externalId = cfg2.externalId) (h4 : cfg.internalId = cfg2.internalId) :
    (refreshPrecheck cfg = none →
      handleRefresh base parse fetchFn cfg st =
        generateSessionStep base parse fetchFn cfg false st) ∧
    refreshPrecheck cfg = refreshPrecheck cfg2 ∧
    (refreshPrecheck cfg = none ↔
      cfg.deploymentId ≠ "" ∧
      (cfg.userIdType = UserIdType.external → cfg.externalId ≠ "") ∧
      (cfg.userIdType = UserIdType.internal → cfg.internalId ≠ "")) := by
  refine ⟨?_, ?_, ?_⟩
  · intro hp
    simp [handleRefresh, hp]
  · simp only [refreshPrecheck, h1, h2, h3, h4]
  · unfold refreshPrecheck
    split_ifs with a b c <;> simp_all

/-- C8 witness: for a concrete passing configuration the refresh equals
the generate flow; a second configuration sharing the four checked
fields (but a different dashboardId) gets the same pre-check result. -/
theorem c8_refresh_flow_witness :
    handleRefresh "https://cube.example" throwingParse
        (fun _ => FetchOutcome.networkError "offline") internalConfig
        emptyClientState =
      generateSessionStep "https://cube.example" throwingParse
        (fun _ => FetchOutcome.networkError "offline") internalConfig false
        emptyClientState ∧
    refreshPrecheck internalConfig =
      refreshPrecheck { internalConfig with dashboardId := "pub-1" } :=
  ⟨(c8_refresh_flow "https://cube.example" throwingParse
      (fun _ => FetchOutcome.networkError "offline") internalConfig
      { internalConfig with dashboardId := "pub-1" } emptyClientState
      rfl rfl rfl rfl).1 rfl,
   (c8_refresh_flow "https://cube.example" throwingParse
      (fun _ => FetchOutcome.networkError "offline") internalConfig
      { internalConfig with dashboardId := "pub-1" } emptyClientState
      rfl rfl rfl rfl).2.1⟩

/-- C9 counterexample: with `PORT` absent but `API_KEY` and
`CUBE_API_URL` set, startup succeeds on the default port 3001 — the
absence of the listening port is not a fatal startup error. -/
theorem c9_port_counterexample :
    startup { port := none, cubeApiUrl := some "https://cube.example"
              apiKey := some "secret-key" } =
      Except.ok { port := "3001", cubeApiUrl := "https://cube.example"
                  apiKey := "secret-key" } := by
  rfl

/-- C9 amended: the upstream base URL and the secret API key are
required at process start and a missing (or empty) value for either is
a fatal startup error with a descriptive message; the listening port is
optional and defaults to 3001 when absent. -/
theorem c9_startup_amended (env : Env) :
    (envFalsy env.apiKey = true →
      startup env = Except.error "ERROR: API_KEY environment variable is required") ∧
    (envFalsy env.apiKey = false → envFalsy env.cubeApiUrl = true →
      startup env = Except.error "ERROR: CUBE_API_URL environment variable is required") ∧
    (envFalsy env.apiKey = false → envFalsy env.cubeApiUrl = false → env.port = none →
      startup env = Except.ok
        { port := "3001", cubeApiUrl := env.cubeApiUrl.getD ""
          apiKey := env.apiKey.getD "" }) := by
  refine ⟨?_, ?_, ?_⟩
  · intro h
    simp [startup, h]
  · intro h h'
    simp [startup, h, h']
  · intro h h' hport
    simp [startup, h, h', hport]

/-- C9 witness: a concrete environment missing `API_KEY` fails fatally
with its message, and a concrete environment with both required
variables but no `PORT` starts on port 3001. -/
theorem c9_startup_amended_witness :
    startup { port := some "8080", cubeApiUrl := some "https://cube.example"
              apiKey := none } =
      Except.error "ERROR: API_KEY environment variable is required" ∧
    startup { port := none, cubeApiUrl := some "https://cube.example"
              apiKey := some "secret-key" } =
      Except.ok { port := "3001", cubeApiUrl := "https://cube.example"
                  apiKey := "secret-key" } :=
  ⟨(c9_startup_amended
      { port := some "8080", cubeApiUrl := some "https://cube.example"
        apiKey := none }).1 rfl,
   (c9_startup_amended
      { port := none, cubeApiUrl := some "https://cube.example"
        apiKey := some "secret-key" }).2.2 rfl rfl rfl⟩

/-- C10: when the relay answers 2xx but the parsed body has no truthy
`sessionId` field, the client records the error message
`Session ID not found in response: ...`, keeps the stored session id
unchanged, and derives or mounts no new embed URL (the URL fields are
only cleared on submit, untouched on refresh). -/
theorem c10_missing_session_id (base : String) (parse : String → Except String Json)
    (fetchFn : RequestBody → FetchOutcome) (cfg : Config) (clearErrors : Bool)
    (st : ClientState) (requestBody : RequestBody) (r : HttpResponse)
    (sessionData : Json) (fld : Option Json)
    (hprep : prepareRequest parse cfg = Except.ok requestBody)
    (hfetch : fetchFn requestBody = FetchOutcome.response r)
    (hok : r.isOk = true)
    (hjson : r.bodyJson = Except.ok sessionData)
    (hfield : jsGetProp sessionData "sessionId" = Except.ok fld)
    (hfalsy : jsTruthyOpt fld = false) :
    (generateSessionStep base parse fetchFn cfg clearErrors st).error =
      some ("Session ID not found in response: " ++ sessionData.stringify) ∧
    (generateSessionStep base parse fetchFn cfg clearErrors st).sessionId =
      st.sessionId ∧
    (generateSessionStep base parse fetchFn cfg clearErrors st).embedUrl =
      (if clearErrors then none else st.embedUrl) ∧
    (generateSessionStep base parse fetchFn cfg clearErrors st).displayEmbedUrl =
      (if clearErrors then none else st.displayEmbedUrl) := by
  cases clearErrors <;>
    simp [generateSessionStep, hprep, hfetch, hok, hjson, hfield, hfalsy]

/-- C10 witness: a 200 response whose body is
`{"sessionId": ""}` (empty-string session id) yields the
`Session ID not found in response` error and leaves session id and
embed URLs unset. -/
theorem c10_missing_session_id_witness :
    (generateSessionStep "https://cube.example" throwingParse
        (fun _ => FetchOutcome.response
          { status := 200, statusText := "OK", bodyText := "\x7b\"sessionId\":\"\"\x7d"
            bodyJson := Except.ok (Json.obj [("sessionId", Json.str "")]) })
        internalConfig true emptyClientState).error =
      some ("Session ID not found in response: " ++
        (Json.obj [("sessionId", Json.str "")]).stringify) ∧
    (generateSessionStep "https://cube.example" throwingParse
        (fun _ => FetchOutcome.response
          { status := 200, statusText := "OK", bodyText := "\x7b\"sessionId\":\"\"\x7d"
            bodyJson := Except.ok (Json.obj [("sessionId", Json.str "")]) })
        internalConfig true emptyClientState).sessionId = none ∧
    (generateSessionStep "https://cube.example" throwingParse
        (fun _ => FetchOutcome.response
          { status := 200, statusText := "OK", bodyText := "\x7b\"sessionId\":\"\"\x7d"
            bodyJson := Except.ok (Json.obj [("sessionId", Json.str "")]) })
        internalConfig true emptyClientState).embedUrl = none ∧
    (generateSessionStep "https://cube.example" throwingParse
        (fun _ => FetchOutcome.response
          { status := 200, statusText := "OK", bodyText := "\x7b\"sessionId\":\"\"\x7d"
            bodyJson := Except.ok (Json.obj [("sessionId", Json.str "")]) })
        internalConfig true emptyClientState).displayEmbedUrl = none :=
  c10_missing_session_id "https://cube.example" throwingParse
    (fun _ => FetchOutcome.response
      { status := 200, statusText := "OK", bodyText := "\x7b\"sessionId\":\"\"\x7d"
        bodyJson := Except.ok (Json.obj [("sessionId", Json.str "")]) })
    internalConfig true emptyClientState internalBody
    { status := 200, statusText := "OK", bodyText := "\x7b\"sessionId\":\"\"\x7d"
      bodyJson := Except.ok (Json.obj [("sessionId", Json.str "")]) }
    (Json.obj [("sessionId", Json.str "")]) (some (Json.str ""))
    (by rfl) rfl rfl rfl rfl rfl

end CubeEmbedDemo
